import Mathlib

/-!
Shallow embedding of the conversation-orchestration pipeline of the
cx-agent backend: the domain entities, the `ConversationService` pipeline
(src variant), the two HTTP handlers for `POST /invocations` (the
`src/presentation/api/conversation_router.py` variant and the
`cx_agent_backend/server.py` variant), the `GET /conversations/id` handler,
and the tool-usage / citation extraction loop of the LangGraph agent
adapter.  External collaborators (repository, guardrail service, agent
framework, JSON parser) are passed in as function parameters; side effects
(repository saves, agent invocations, feedback logging) are recorded in an
explicit event trace.
-/

namespace CxAgent

/-- Message roles.  From the spec's data model (`role (user | assistant)`);
the entity file `domain/entities/conversation.py` is not under src. -/
inductive MessageRole where
  | user
  | assistant
deriving DecidableEq, Repr

/-- Modelled from the spec: `domain/entities/conversation.py` is not under
src.  A Message carries a role, a content string and a free-form metadata
map (spec section 3); the generated id and timestamp are omitted because no
claim references them.  Metadata is an ordered association list, matching
the insertion-ordered Python dict literals built by the service. -/
structure Message where
  role : MessageRole
  content : String
  metadata : List (String × String)
deriving DecidableEq, Repr

/-- Modelled from the spec: wraps content as a user message
(`Message.create_user_message`). -/
def Message.create_user_message (content : String) : Message :=
  ⟨MessageRole.user, content, []⟩

/-- Modelled from the spec: wraps content as an assistant message with the
given metadata map (`Message.create_assistant_message`). -/
def Message.create_assistant_message (content : String)
    (metadata : List (String × String)) : Message :=
  ⟨MessageRole.assistant, content, metadata⟩

/-- Modelled from the spec: a Conversation is an id, a user id and an
ordered, append-only sequence of messages (spec section 3); lifecycle
status, timestamps and the metadata map are omitted because no claim
references them.  Conversation ids are modelled as naturals standing for
UUIDs. -/
structure Conversation where
  id : Nat
  user_id : String
  messages : List Message
deriving DecidableEq, Repr

/-- Modelled from the spec: `Conversation.create` starts a conversation
with no messages; the fresh UUID is supplied by the caller. -/
def Conversation.create (freshId : Nat) (user_id : String) : Conversation :=
  ⟨freshId, user_id, []⟩

/-- Modelled from the spec: appending a message to the end of the ordered
message sequence (`Conversation.add_message`; append-only, insertion order
significant). -/
def Conversation.add_message (c : Conversation) (m : Message) : Conversation :=
  ⟨c.id, c.user_id, c.messages ++ [m]⟩

/-- Agent types, from `domain/services/agent_service.py` (`AgentType`). -/
inductive AgentType where
  | customer_service
  | research
  | general
deriving DecidableEq, Repr

/-- The `.value` string of an `AgentType` member. -/
def AgentType.value : AgentType → String
  | .customer_service => "customer_service"
  | .research => "research"
  | .general => "general"

/-- `AgentRequest` from `domain/services/agent_service.py`. -/
structure AgentRequest where
  messages : List Message
  agent_type : AgentType
  user_id : String
  model : String
  session_id : Option String
  trace_id : Option String
deriving DecidableEq, Repr

/-- `AgentResponse` from `domain/services/agent_service.py`. -/
structure AgentResponse where
  content : String
  agent_type : AgentType
  tools_used : List String
  metadata : List (String × String)
deriving DecidableEq, Repr

/-- `GuardrailAssessment` outcome (`domain/services/guardrail_service.py`,
declared by the spec's data model; the file itself is not under src). -/
inductive GuardrailAssessment where
  | ALLOWED
  | BLOCKED
deriving DecidableEq, Repr

/-- Guardrail check result: assessment, substitute message and blocked
category tags, as consumed by `ConversationService.send_message`. -/
structure GuardrailResult where
  assessment : GuardrailAssessment
  message : String
  blocked_categories : List String
deriving DecidableEq, Repr

/-- A guardrail collaborator: `check_input` and `check_output`, each taking
one message and returning an assessment (spec section 4.3). -/
structure GuardrailSvc where
  check_input : Message → GuardrailResult
  check_output : Message → GuardrailResult

/-- Kinds of Python exceptions that cross the service / HTTP boundary:
`ValueError` (mapped to 404 by the handlers) and any other exception
(mapped to 500). -/
inductive PyKind where
  | valueError (msg : String)
  | otherExc (msg : String)
deriving DecidableEq, Repr

/-- Observable side effects of one pipeline run: repository saves, agent
invocations, feedback logged to the telemetry sink. -/
inductive Ev where
  | saved (c : Conversation)
  | agentCalled (r : AgentRequest)
  | feedbackLogged (user : String) (session : String) (runId : String)
      (score : Int) (comment : String)
deriving DecidableEq, Repr

/-- Input-guardrail step of `ConversationService.send_message`
(conversation_service.py lines 50-52): when a guardrail service is
configured and `check_input` returns BLOCKED, yields the blocking result. -/
def inputBlocked (guard : Option GuardrailSvc) (m : Message) :
    Option GuardrailResult :=
  match guard with
  | none => none
  | some g =>
    let r := g.check_input m
    if r.assessment = GuardrailAssessment.BLOCKED then some r else none

/-- Output-guardrail step of `ConversationService.send_message`
(conversation_service.py lines 89-91). -/
def outputBlocked (guard : Option GuardrailSvc) (m : Message) :
    Option GuardrailResult :=
  match guard with
  | none => none
  | some g =>
    let r := g.check_output m
    if r.assessment = GuardrailAssessment.BLOCKED then some r else none

/-- The substitute assistant message built whenever a guardrail blocks
(conversation_service.py lines 53-60 and 92-99): the guardrail's message
with the blocked-category tags joined by commas. -/
def blockedSubstitute (gr : GuardrailResult) : Message :=
  Message.create_assistant_message gr.message
    [("blocked_categories", String.intercalate "," gr.blocked_categories)]

/-- The `AgentRequest` built from the conversation after the user message
was appended (conversation_service.py lines 69-76). -/
def builtRequest (conversation : Conversation) (model : String) : AgentRequest :=
  ⟨conversation.messages, AgentType.customer_service, conversation.user_id,
    model, some (toString conversation.id), none⟩

/-- The assistant message wrapping the agent's reply
(conversation_service.py lines 80-86): the agent's content, tagged with
agent type and the comma-joined tools-used list. -/
def rawAiMessage (agent_response : AgentResponse) : Message :=
  Message.create_assistant_message agent_response.content
    [("agent_type", agent_response.agent_type.value),
     ("tools_used", String.intercalate "," agent_response.tools_used)]

/-- The assistant message after the output-guardrail step
(conversation_service.py lines 88-99): replaced by the substitute exactly
when the output check returns BLOCKED. -/
def finalAiMessage (guard : Option GuardrailSvc)
    (agent_response : AgentResponse) : Message :=
  match outputBlocked guard (rawAiMessage agent_response) with
  | some gr => blockedSubstitute gr
  | none => rawAiMessage agent_response

/-- `ConversationService.send_message` from
`src/cx-agent-backend/src/domain/services/conversation_service.py`
(lines 37-106).  The repository is the lookup function `repo`; the agent
collaborator may raise, returning `Except.error`; an uncaught agent
exception propagates as the error of the run.  Returns the value returned
(or the exception raised) together with the event trace. -/
def ConversationService.send_message (repo : Nat → Option Conversation)
    (guard : Option GuardrailSvc)
    (agent : AgentRequest → Except PyKind AgentResponse)
    (cid : Nat) (content model : String) :
    Except PyKind (Message × List String) × List Ev :=
  match repo cid with
  | none =>
    (Except.error (PyKind.valueError
      ("Conversation " ++ toString cid ++ " not found")), [])
  | some conversation =>
    let user_message := Message.create_user_message content
    match inputBlocked guard user_message with
    | some gr =>
      let blocked_message := blockedSubstitute gr
      let conv2 :=
        (conversation.add_message user_message).add_message blocked_message
      (Except.ok (blocked_message, []), [Ev.saved conv2])
    | none =>
      let conversation := conversation.add_message user_message
      let agent_request := builtRequest conversation model
      match agent agent_request with
      | Except.error e => (Except.error e, [Ev.agentCalled agent_request])
      | Except.ok agent_response =>
        let ai_message := finalAiMessage guard agent_response
        let conversation := conversation.add_message ai_message
        (Except.ok (ai_message, agent_response.tools_used),
          [Ev.agentCalled agent_request, Ev.saved conversation])

/-- `ConversationService.start_conversation` (conversation_service.py
lines 31-35): create a fresh conversation and save it. -/
def ConversationService.start_conversation (freshId : Nat) (user_id : String) :
    Conversation × List Ev :=
  let conversation := Conversation.create freshId user_id
  (conversation, [Ev.saved conversation])

/-- Python truthiness of an optional string: `None` and the empty string
are falsy. -/
def strFalsy : Option String → Bool
  | none => true
  | some s => s.isEmpty

/-- An HTTP error response: status code and detail string
(`fastapi.HTTPException`). -/
structure HttpErr where
  status : Nat
  detail : String
deriving DecidableEq, Repr

/-- `SendMessageResponse` schema returned by the router's `/invocations`
endpoint: a response string and the tools-used list. -/
structure SendMessageResponse where
  response : String
  tools_used : List String
deriving DecidableEq, Repr

/-- Modelled from the spec: the feedback object of the router's
`SendMessageRequest` (the schema file
`presentation/schemas/conversation_schemas.py` is not under src); fields as
accessed by the router: run id, session id, a continuous score, a comment.
The score is a rational standing for the Python float; the threshold 0.5 is
exactly representable. -/
structure FeedbackIn where
  run_id : String
  session_id : String
  score : ℚ
  comment : String
deriving DecidableEq, Repr

/-- Modelled from the spec (section 6): the router's `SendMessageRequest`
body `prompt?, conversation_id?, model, user_id?, feedback?` (the schema
file is not under src). -/
structure SendMessageRequest where
  prompt : Option String
  conversation_id : Option Nat
  model : String
  user_id : Option String
  feedback : Option FeedbackIn
deriving DecidableEq, Repr

/-- Repository state after `save(c)`: lookups of `c.id` now return `c`
(read-modify-write against the external store). -/
def updateRepo (repo : Nat → Option Conversation) (c : Conversation) :
    Nat → Option Conversation :=
  fun i => if i = c.id then some c else repo i

/-- Maps the outcome of `ConversationService.send_message` the way the
router's `except` clauses do (conversation_router.py lines 134-141):
a `ValueError` becomes 404, any other exception becomes an opaque 500. -/
def routerMapResult (res : Except PyKind (Message × List String)) :
    Except HttpErr SendMessageResponse :=
  match res with
  | Except.ok (message, tools_used) =>
    Except.ok ⟨message.content, tools_used⟩
  | Except.error (PyKind.valueError m) => Except.error ⟨404, m⟩
  | Except.error (PyKind.otherExc m) =>
    Except.error ⟨500, "Failed to process request: " ++ m⟩

/-- The router's `POST /api/v1/invocations` handler `send_message`
(`src/presentation/api/conversation_router.py` lines 95-141).  Feedback, if
present, is logged first under the fixed user id "default_user" with the
score thresholded at 0.5.  When neither prompt nor feedback is supplied the
`HTTPException(400)` is raised inside the `try` block, so the blanket
`except Exception` catches it and re-raises it as a 500 whose detail wraps
the original exception's string. -/
def router_send_message (repo : Nat → Option Conversation)
    (guard : Option GuardrailSvc)
    (agent : AgentRequest → Except PyKind AgentResponse)
    (freshId : Nat) (req : SendMessageRequest) :
    Except HttpErr SendMessageResponse × List Ev :=
  let fbEvents :=
    match req.feedback with
    | some fb =>
      [Ev.feedbackLogged "default_user" fb.session_id fb.run_id
        (if (1 : ℚ)/2 < fb.score then 1 else 0) fb.comment]
    | none => []
  if strFalsy req.prompt then
    match req.feedback with
    | none =>
      (Except.error ⟨500,
        "Failed to process request: 400: Either prompt or feedback must be provided"⟩,
        fbEvents)
    | some _ => (Except.ok ⟨"Feedback received", []⟩, fbEvents)
  else
    let p := req.prompt.getD ""
    match req.conversation_id with
    | some cid =>
      let r := ConversationService.send_message repo guard agent cid p req.model
      (routerMapResult r.1, fbEvents ++ r.2)
    | none =>
      let c := ConversationService.start_conversation freshId "default_user"
      let r := ConversationService.send_message (updateRepo repo c.1) guard
        agent c.1.id p req.model
      (routerMapResult r.1, fbEvents ++ c.2 ++ r.2)

/-- The router's `GET /api/v1/conversation_id` handler `get_conversation`
(conversation_router.py lines 78-92): a lookup miss yields 404 and no side
effects. -/
def get_conversation_handler (repo : Nat → Option Conversation) (cid : Nat) :
    Except HttpErr Conversation × List Ev :=
  match repo cid with
  | none => (Except.error ⟨404, "Conversation not found"⟩, [])
  | some c => (Except.ok c, [])

/-- Modelled from the spec: the feedback dict of the AgentCore
`/invocations` body; server.py reads its keys with `.get`, so every field
is optional and a missing score defaults to 0. -/
structure FeedbackDict where
  run_id : Option String
  session_id : Option String
  score : Option ℚ
  comment : Option String
deriving DecidableEq, Repr

/-- The `input` object of the AgentCore `/invocations` body as read by
server.py lines 73-77. -/
structure InvInput where
  prompt : Option String
  feedback : Option FeedbackDict
  conversation_id : Option Nat
  user_id : Option String
deriving DecidableEq, Repr

/-- Successful payloads of the AgentCore `/invocations` endpoint: either
the agent reply with its metadata, or the feedback-only acknowledgement. -/
inductive SrvOut where
  | reply (message : String) (metadata : List (String × String))
  | feedbackAck
deriving DecidableEq, Repr

/-- Modelled from the spec: the `send_message` of
`cx_agent_backend/domain/services/conversation_service.py` called by
server.py is not under src.  Per spec section 4.1 step 1 the pipeline
resolves the conversation or creates a fresh one, then runs the same
guardrail/agent/persist pipeline as the src sibling; collaborator failures
propagate to the HTTP boundary (spec section 4.1).  An absent user id is
modelled as the empty string (no claim depends on it). -/
def CxConversationService.send_message (repo : Nat → Option Conversation)
    (guard : Option GuardrailSvc)
    (agent : AgentRequest → Except PyKind AgentResponse)
    (freshId : Nat) (cid? : Option Nat) (user : String)
    (content model : String) :
    Except PyKind (Message × List String) × List Ev :=
  match cid? with
  | some cid => ConversationService.send_message repo guard agent cid content model
  | none =>
    let c := ConversationService.start_conversation freshId user
    let r := ConversationService.send_message (updateRepo repo c.1) guard agent
      c.1.id content model
    (r.1, c.2 ++ r.2)

/-- The AgentCore `POST /invocations` handler of
`cx_agent_backend/server.py` (lines 61-125).  The "neither prompt nor
feedback" check raises its 400 before the `try` block, so it reaches the
client as a 400; inside the `try`, a `ValueError` maps to 404 and any other
exception to an opaque 500. -/
def invocations (repo : Nat → Option Conversation)
    (guard : Option GuardrailSvc)
    (agent : AgentRequest → Except PyKind AgentResponse)
    (freshId : Nat) (default_model : String) (inp : InvInput) :
    Except HttpErr SrvOut × List Ev :=
  if strFalsy inp.prompt && inp.feedback.isNone then
    (Except.error ⟨400, "Either prompt or feedback must be provided in input."⟩, [])
  else
    let fbEvents :=
      match inp.feedback with
      | some fb =>
        [Ev.feedbackLogged (inp.user_id.getD "") (fb.session_id.getD "")
          (fb.run_id.getD "")
          (if (1 : ℚ)/2 < fb.score.getD 0 then 1 else 0) (fb.comment.getD "")]
      | none => []
    if strFalsy inp.prompt then (Except.ok SrvOut.feedbackAck, fbEvents)
    else
      let r := CxConversationService.send_message repo guard agent freshId
        inp.conversation_id (inp.user_id.getD "") (inp.prompt.getD "")
        default_model
      match r.1 with
      | Except.ok (message, _tools) =>
        (Except.ok (SrvOut.reply message.content message.metadata),
          fbEvents ++ r.2)
      | Except.error (PyKind.valueError m) =>
        (Except.error ⟨404, m⟩, fbEvents ++ r.2)
      | Except.error (PyKind.otherExc m) =>
        (Except.error ⟨500, "Failed to process request: " ++ m⟩, fbEvents ++ r.2)

/-- The STM memory-id configuration check of the cx-variant
`LangGraphAgentService.process_request`
(cx_agent_backend/infrastructure/adapters/langgraph_agent_service.py lines
212-215): an unset or empty parameter raises
`ValueError("STM Memory ID not configured")`. -/
def LangGraphAgentService.stm_check (stm_memory_id : Option String) :
    Except PyKind Unit :=
  if strFalsy stm_memory_id then
    Except.error (PyKind.valueError "STM Memory ID not configured")
  else Except.ok ()

/-- The cx-variant `LangGraphAgentService.process_request` (lines 175-331):
the input-guardrail short-circuit on the last user message (lines 187-209),
then the STM configuration check (lines 212-215); the downstream
agent-framework invocation and response extraction are the abstract
`inner`. -/
def LangGraphAgentService.process_request (stm_memory_id : Option String)
    (guard : Option GuardrailSvc)
    (inner : AgentRequest → Except PyKind AgentResponse)
    (request : AgentRequest) : Except PyKind AgentResponse :=
  let blockedResp : Option AgentResponse :=
    match guard with
    | some g =>
      if request.messages.isEmpty then none
      else
        match request.messages.reverse.find?
            (fun m => m.role == MessageRole.user) with
        | some last_user_message =>
          let r := g.check_input last_user_message
          if r.assessment = GuardrailAssessment.BLOCKED then
            some ⟨r.message, request.agent_type, [],
              [("blocked_categories",
                String.intercalate "," r.blocked_categories)]⟩
          else none
        | none => none
    | none => none
  match blockedResp with
  | some resp => Except.ok resp
  | none =>
    match LangGraphAgentService.stm_check stm_memory_id with
    | Except.error e => Except.error e
    | Except.ok _ => inner request

/-- JSON-like Python values, as returned by `json.loads` over a tool-output
payload.  Numbers are modelled as integers (no claim depends on numeric
value). -/
inductive JVal where
  | jnull
  | jbool (b : Bool)
  | jnum (n : Int)
  | jstr (s : String)
  | jarr (items : List JVal)
  | jobj (fields : List (String × JVal))

mutual

/-- Structural equality on parsed JSON values, the meaning of Python `==`
between values returned by `json.loads`. -/
def JVal.beq : JVal → JVal → Bool
  | .jnull, .jnull => true
  | .jbool a, .jbool b => a == b
  | .jnum a, .jnum b => a == b
  | .jstr a, .jstr b => a == b
  | .jarr xs, .jarr ys => JVal.beqList xs ys
  | .jobj xs, .jobj ys => JVal.beqFields xs ys
  | _, _ => false

/-- Elementwise structural equality of JSON lists. -/
def JVal.beqList : List JVal → List JVal → Bool
  | [], [] => true
  | x :: xs, y :: ys => JVal.beq x y && JVal.beqList xs ys
  | _, _ => false

/-- Fieldwise structural equality of JSON objects. -/
def JVal.beqFields : List (String × JVal) → List (String × JVal) → Bool
  | [], [] => true
  | kv :: xs, kw :: ys =>
    kv.1 == kw.1 && JVal.beq kv.2 kw.2 && JVal.beqFields xs ys
  | _, _ => false

end

instance : BEq JVal := ⟨JVal.beq⟩

/-- Python substring test `key in s` for a non-empty literal key. -/
def pyInStr (key s : String) : Bool := (s.splitOn key).length > 1

/-- Kinds of Python exceptions the citation-harvesting block can raise. -/
inductive PyExc where
  | typeError
  | keyError
  | jsonDecodeError
  | attributeError
deriving DecidableEq, Repr

/-- Python `key in v` on a parsed JSON value: key lookup on dicts, element
equality on lists, substring test on strings, `TypeError` otherwise. -/
def pyContains (key : String) : JVal → Except PyExc Bool
  | .jobj fields => Except.ok (fields.any (fun kv => kv.1 == key))
  | .jarr items => Except.ok (items.any (fun v => v == JVal.jstr key))
  | .jstr s => Except.ok (pyInStr key s)
  | _ => Except.error PyExc.typeError

/-- Python `v[key]` with a string key: dict lookup (`KeyError` on a miss),
`TypeError` on any non-dict value. -/
def pyIndex (key : String) : JVal → Except PyExc JVal
  | .jobj fields =>
    match fields.find? (fun kv => kv.1 == key) with
    | some kv => Except.ok kv.2
    | none => Except.error PyExc.keyError
  | _ => Except.error PyExc.typeError

/-- Python `acc.extend(v)`: lists contribute their items, strings their
characters, dicts their keys; any non-iterable raises `TypeError`. -/
def extendPy (acc : List JVal) : JVal → Except PyExc (List JVal)
  | .jarr items => Except.ok (acc ++ items)
  | .jstr s =>
    Except.ok (acc ++ s.toList.map (fun ch => JVal.jstr (String.singleton ch)))
  | .jobj fields => Except.ok (acc ++ fields.map (fun kv => JVal.jstr kv.1))
  | _ => Except.error PyExc.typeError

/-- LangChain transcript messages as the extraction loop of
`LangGraphAgentService.process_request` distinguishes them: AIMessages
carry their tool-call names, ToolMessages carry a content payload (a
Python string or any other value), remaining kinds are scanned but
contribute nothing. -/
inductive LCMessage where
  | ai (content : String) (tool_calls : List String)
  | human (content : String)
  | toolMsg (content : JVal)
  | otherMsg

/-- Tool-call names a single transcript message contributes. -/
def toolCallNames : LCMessage → List String
  | .ai _ tcs => tcs
  | _ => []

/-- The tool-name collection loop (src variant lines 144-152, cx variant
lines 272-280): scan every emitted message, appending the names of every
tool call of every AIMessage. -/
def collectToolNames (msgs : List LCMessage) : List String :=
  List.foldl (fun acc m => acc ++ toolCallNames m) [] msgs

/-- `tools_used = list(set(tools_used))` (src variant line 154, cx variant
line 297).  Python's set drops duplicates with unspecified iteration
order; it is modelled as first-occurrence dedup, and only set-level facts
(membership, no duplicates) are proved about the result. -/
def extract_tools_used (msgs : List LCMessage) : List String :=
  (collectToolNames msgs).dedup

/-- Mutable state of the citation-harvesting loop: the `citations` list
and the `knowledge_base_id` binding. -/
structure HarvestSt where
  citations : List JVal
  knowledge_base_id : Option JVal

/-- Initial harvesting state (cx variant lines 268-269). -/
def initHarvest : HarvestSt := ⟨[], none⟩

/-- The body of the per-ToolMessage `try` block (cx variant lines 284-292):
if the content is a string, parse it as JSON, extend `citations` when a
`citations` key tests present, and bind `knowledge_base_id` when that key
tests present.  An exception is returned together with the state at the
moment it is raised, because the preceding `citations.extend` mutation
survives the `except`. -/
def harvestBody (parse : String → Option JVal) (st : HarvestSt) :
    LCMessage → Except (PyExc × HarvestSt) HarvestSt
  | .toolMsg content =>
    match content with
    | .jstr s =>
      match parse s with
      | none => Except.error (PyExc.jsonDecodeError, st)
      | some v =>
        match pyContains "citations" v with
        | Except.error e => Except.error (e, st)
        | Except.ok b =>
          let step : Except (PyExc × HarvestSt) HarvestSt :=
            if b then
              match pyIndex "citations" v with
              | Except.error e => Except.error (e, st)
              | Except.ok cv =>
                match extendPy st.citations cv with
                | Except.error e => Except.error (e, st)
                | Except.ok cits => Except.ok ⟨cits, st.knowledge_base_id⟩
            else Except.ok st
          match step with
          | Except.error e => Except.error e
          | Except.ok st2 =>
            match pyContains "knowledge_base_id" v with
            | Except.error e => Except.error (e, st2)
            | Except.ok b2 =>
              if b2 then
                match pyIndex "knowledge_base_id" v with
                | Except.error e => Except.error (e, st2)
                | Except.ok kv => Except.ok ⟨st2.citations, some kv⟩
              else Except.ok st2
    | _ => Except.ok st
  | _ => Except.ok st

/-- The exception kinds named by the `except` clause (cx variant line 293):
`json.JSONDecodeError`, `TypeError`, `AttributeError`; a `KeyError` would
escape it. -/
def caughtExc : PyExc → Bool
  | PyExc.typeError => true
  | PyExc.jsonDecodeError => true
  | PyExc.attributeError => true
  | PyExc.keyError => false

/-- One ToolMessage step of the harvesting loop with its `try`/`except`:
a caught exception leaves the loop with the state reached so far; any
other exception propagates. -/
def harvestMsg (parse : String → Option JVal) (st : HarvestSt)
    (m : LCMessage) : Except PyExc HarvestSt :=
  match harvestBody parse st m with
  | Except.ok st2 => Except.ok st2
  | Except.error (e, st2) =>
    if caughtExc e then Except.ok st2 else Except.error e

/-- The citation-harvesting loop over a whole transcript (cx variant lines
274-294): an uncaught exception aborts the loop and propagates. -/
def harvest (parse : String → Option JVal) (st : HarvestSt) :
    List LCMessage → Except PyExc HarvestSt
  | [] => Except.ok st
  | m :: rest =>
    match harvestMsg parse st m with
    | Except.error e => Except.error e
    | Except.ok st2 => harvest parse st2 rest

/-- A tool-output payload the claim calls malformed: its content is not a
string, or it is a string that is not valid JSON, or its parsed value is
not a JSON object carrying a `citations` or `knowledge_base_id` key. -/
def malformedContent (parse : String → Option JVal) (content : JVal) : Prop :=
  (∀ s, content ≠ JVal.jstr s) ∨
  (∃ s, content = JVal.jstr s ∧
    (parse s = none ∨
     ∃ v, parse s = some v ∧
       ∀ fields, v = JVal.jobj fields →
         ∀ kv ∈ fields, kv.1 ≠ "citations" ∧ kv.1 ≠ "knowledge_base_id"))

end CxAgent

namespace CxAgent

/-- Claim C1: for every prompt that passes the input guardrail check,
`ConversationService.send_message` returns a message whose content is
exactly the agent's generated content, replaced by the output-guardrail
substitute only when the output check returns BLOCKED, and the saved
conversation is the original messages followed by the user message and the
assistant message, in that order. -/
theorem C1_pass_returns_agent_content
    (repo : Nat → Option Conversation) (guard : Option GuardrailSvc)
    (agent : AgentRequest → Except PyKind AgentResponse)
    (cid : Nat) (content model : String) (conv : Conversation)
    (agent_response : AgentResponse)
    (hconv : repo cid = some conv)
    (hpass : inputBlocked guard (Message.create_user_message content) = none)
    (hagent : agent (builtRequest
        (conv.add_message (Message.create_user_message content)) model) =
      Except.ok agent_response) :
    ConversationService.send_message repo guard agent cid content model =
      (Except.ok (finalAiMessage guard agent_response,
          agent_response.tools_used),
       [Ev.agentCalled (builtRequest
          (conv.add_message (Message.create_user_message content)) model),
        Ev.saved ((conv.add_message (Message.create_user_message content)).add_message
          (finalAiMessage guard agent_response))]) ∧
    (outputBlocked guard (rawAiMessage agent_response) = none →
      (finalAiMessage guard agent_response).content = agent_response.content) ∧
    (∀ gr, outputBlocked guard (rawAiMessage agent_response) = some gr →
      (finalAiMessage guard agent_response).content = gr.message) ∧
    ((conv.add_message (Message.create_user_message content)).add_message
        (finalAiMessage guard agent_response)).messages =
      conv.messages ++
        [Message.create_user_message content, finalAiMessage guard agent_response] := by
  refine ⟨?_, ?_, ?_, ?_⟩
  · simp [ConversationService.send_message, hconv, hpass, hagent]
  · intro h
    unfold finalAiMessage
    rw [h]
    rfl
  · intro gr h
    unfold finalAiMessage
    rw [h]
    rfl
  · simp [Conversation.add_message, List.append_assoc]

/-- Witness for C1 at a concrete run: one stored conversation, no
guardrail, an agent replying "hello" having used toolA. -/
theorem C1_pass_returns_agent_content_witness :
    ConversationService.send_message
        (fun i => if i = 1 then some ⟨1, "u", []⟩ else none) none
        (fun _ => Except.ok ⟨"hello", AgentType.customer_service, ["toolA"], []⟩)
        1 "hi" "m" =
      (Except.ok
        (finalAiMessage none ⟨"hello", AgentType.customer_service, ["toolA"], []⟩,
          ["toolA"]),
       [Ev.agentCalled (builtRequest
          (Conversation.add_message ⟨1, "u", []⟩ (Message.create_user_message "hi")) "m"),
        Ev.saved ((Conversation.add_message ⟨1, "u", []⟩
            (Message.create_user_message "hi")).add_message
          (finalAiMessage none
            ⟨"hello", AgentType.customer_service, ["toolA"], []⟩))]) :=
  (C1_pass_returns_agent_content
    (fun i => if i = 1 then some ⟨1, "u", []⟩ else none) none
    (fun _ => Except.ok ⟨"hello", AgentType.customer_service, ["toolA"], []⟩)
    1 "hi" "m" ⟨1, "u", []⟩
    ⟨"hello", AgentType.customer_service, ["toolA"], []⟩ rfl rfl rfl).1

/-- Claim C2: when the input guardrail returns BLOCKED, the agent
collaborator is never invoked (the outcome does not depend on it and no
agent event is traced), the user message and the substitute assistant
message are appended in that order and saved, and the substitute is
returned with an empty tool list. -/
theorem C2_input_blocked_short_circuit
    (repo : Nat → Option Conversation) (guard : Option GuardrailSvc)
    (agent : AgentRequest → Except PyKind AgentResponse)
    (cid : Nat) (content model : String) (conv : Conversation)
    (gr : GuardrailResult)
    (hconv : repo cid = some conv)
    (hblock : inputBlocked guard (Message.create_user_message content) = some gr) :
    ConversationService.send_message repo guard agent cid content model =
      (Except.ok (blockedSubstitute gr, []),
       [Ev.saved ((conv.add_message (Message.create_user_message content)).add_message
          (blockedSubstitute gr))]) ∧
    (∀ agent2, ConversationService.send_message repo guard agent2 cid content model =
        ConversationService.send_message repo guard agent cid content model) ∧
    (∀ r, Ev.agentCalled r ∉
        (ConversationService.send_message repo guard agent cid content model).2) ∧
    ((conv.add_message (Message.create_user_message content)).add_message
        (blockedSubstitute gr)).messages =
      conv.messages ++
        [Message.create_user_message content, blockedSubstitute gr] := by
  have h1 : ConversationService.send_message repo guard agent cid content model =
      (Except.ok (blockedSubstitute gr, []),
       [Ev.saved ((conv.add_message (Message.create_user_message content)).add_message
          (blockedSubstitute gr))]) := by
    simp [ConversationService.send_message, hconv, hblock]
  refine ⟨h1, ?_, ?_, ?_⟩
  · intro agent2
    rw [h1]
    simp [ConversationService.send_message, hconv, hblock]
  · intro r
    rw [h1]
    simp
  · simp [Conversation.add_message, List.append_assoc]

/-- Witness for C2 at a concrete run: a guardrail that blocks every input
with substitute "blocked". -/
theorem C2_input_blocked_short_circuit_witness :
    ConversationService.send_message
        (fun i => if i = 1 then some ⟨1, "u", []⟩ else none)
        (some ⟨fun _ => ⟨GuardrailAssessment.BLOCKED, "blocked", ["hate"]⟩,
               fun _ => ⟨GuardrailAssessment.ALLOWED, "", []⟩⟩)
        (fun _ => Except.ok ⟨"hello", AgentType.customer_service, [], []⟩)
        1 "hi" "m" =
      (Except.ok (blockedSubstitute ⟨GuardrailAssessment.BLOCKED, "blocked", ["hate"]⟩, []),
       [Ev.saved ((Conversation.add_message ⟨1, "u", []⟩
            (Message.create_user_message "hi")).add_message
          (blockedSubstitute ⟨GuardrailAssessment.BLOCKED, "blocked", ["hate"]⟩))]) :=
  (C2_input_blocked_short_circuit
    (fun i => if i = 1 then some ⟨1, "u", []⟩ else none)
    (some ⟨fun _ => ⟨GuardrailAssessment.BLOCKED, "blocked", ["hate"]⟩,
           fun _ => ⟨GuardrailAssessment.ALLOWED, "", []⟩⟩)
    (fun _ => Except.ok ⟨"hello", AgentType.customer_service, [], []⟩)
    1 "hi" "m" ⟨1, "u", []⟩ ⟨GuardrailAssessment.BLOCKED, "blocked", ["hate"]⟩
    rfl rfl).1

/-- Claim C3: when the output guardrail returns BLOCKED on the agent's
reply, the assistant message appended and persisted is the guardrail's
substitute (its content is the substitute message, not the agent's raw
output) and it carries the blocked-category metadata. -/
theorem C3_output_blocked_substitute
    (repo : Nat → Option Conversation) (guard : Option GuardrailSvc)
    (agent : AgentRequest → Except PyKind AgentResponse)
    (cid : Nat) (content model : String) (conv : Conversation)
    (agent_response : AgentResponse) (gr : GuardrailResult)
    (hconv : repo cid = some conv)
    (hpass : inputBlocked guard (Message.create_user_message content) = none)
    (hagent : agent (builtRequest
        (conv.add_message (Message.create_user_message content)) model) =
      Except.ok agent_response)
    (hout : outputBlocked guard (rawAiMessage agent_response) = some gr) :
    (ConversationService.send_message repo guard agent cid content model).1 =
      Except.ok (blockedSubstitute gr, agent_response.tools_used) ∧
    Ev.saved ((conv.add_message (Message.create_user_message content)).add_message
        (blockedSubstitute gr))
      ∈ (ConversationService.send_message repo guard agent cid content model).2 ∧
    (blockedSubstitute gr).content = gr.message ∧
    (blockedSubstitute gr).metadata =
      [("blocked_categories", String.intercalate "," gr.blocked_categories)] := by
  have h1 : ConversationService.send_message repo guard agent cid content model =
      (Except.ok (blockedSubstitute gr, agent_response.tools_used),
       [Ev.agentCalled (builtRequest
          (conv.add_message (Message.create_user_message content)) model),
        Ev.saved ((conv.add_message (Message.create_user_message content)).add_message
          (blockedSubstitute gr))]) := by
    simp [ConversationService.send_message, hconv, hpass, hagent,
      finalAiMessage, hout]
  refine ⟨?_, ?_, rfl, rfl⟩
  · rw [h1]
  · rw [h1]
    simp

/-- Witness for C3 at a concrete run: a guardrail passing input but
blocking every output with substitute "redacted". -/
theorem C3_output_blocked_substitute_witness :
    (ConversationService.send_message
        (fun i => if i = 1 then some ⟨1, "u", []⟩ else none)
        (some ⟨fun _ => ⟨GuardrailAssessment.ALLOWED, "", []⟩,
               fun _ => ⟨GuardrailAssessment.BLOCKED, "redacted", ["pii"]⟩⟩)
        (fun _ => Except.ok ⟨"raw reply", AgentType.customer_service, ["toolA"], []⟩)
        1 "hi" "m").1 =
      Except.ok (blockedSubstitute ⟨GuardrailAssessment.BLOCKED, "redacted", ["pii"]⟩,
        ["toolA"]) :=
  (C3_output_blocked_substitute
    (fun i => if i = 1 then some ⟨1, "u", []⟩ else none)
    (some ⟨fun _ => ⟨GuardrailAssessment.ALLOWED, "", []⟩,
           fun _ => ⟨GuardrailAssessment.BLOCKED, "redacted", ["pii"]⟩⟩)
    (fun _ => Except.ok ⟨"raw reply", AgentType.customer_service, ["toolA"], []⟩)
    1 "hi" "m" ⟨1, "u", []⟩
    ⟨"raw reply", AgentType.customer_service, ["toolA"], []⟩
    ⟨GuardrailAssessment.BLOCKED, "redacted", ["pii"]⟩
    rfl rfl rfl rfl).1

/-- Claim C5: an unknown conversation id yields a not-found client error:
GET answers 404 with no side effects, and send_message raises the
not-found ValueError with an empty event trace (nothing appended or
saved), which the router maps to 404. -/
theorem C5_unknown_conversation_not_found
    (repo : Nat → Option Conversation) (guard : Option GuardrailSvc)
    (agent : AgentRequest → Except PyKind AgentResponse)
    (cid : Nat) (content model : String)
    (hmiss : repo cid = none) :
    get_conversation_handler repo cid =
      (Except.error ⟨404, "Conversation not found"⟩, []) ∧
    ConversationService.send_message repo guard agent cid content model =
      (Except.error (PyKind.valueError
        ("Conversation " ++ toString cid ++ " not found")), []) ∧
    routerMapResult
        (ConversationService.send_message repo guard agent cid content model).1 =
      Except.error ⟨404, "Conversation " ++ toString cid ++ " not found"⟩ := by
  have h2 : ConversationService.send_message repo guard agent cid content model =
      (Except.error (PyKind.valueError
        ("Conversation " ++ toString cid ++ " not found")), []) := by
    simp [ConversationService.send_message, hmiss]
  refine ⟨?_, h2, ?_⟩
  · simp [get_conversation_handler, hmiss]
  · rw [h2]
    simp [routerMapResult]

/-- Witness for C5 at a concrete run: an empty store and conversation
id 5. -/
theorem C5_unknown_conversation_not_found_witness :
    get_conversation_handler (fun _ => none) 5 =
      (Except.error ⟨404, "Conversation not found"⟩, []) ∧
    ConversationService.send_message (fun _ => none) none
        (fun _ => Except.ok ⟨"hello", AgentType.customer_service, [], []⟩)
        5 "hi" "m" =
      (Except.error (PyKind.valueError
        ("Conversation " ++ toString 5 ++ " not found")), []) ∧
    routerMapResult
        (ConversationService.send_message (fun _ => none) none
          (fun _ => Except.ok ⟨"hello", AgentType.customer_service, [], []⟩)
          5 "hi" "m").1 =
      Except.error ⟨404, "Conversation " ++ toString 5 ++ " not found"⟩ :=
  C5_unknown_conversation_not_found (fun _ => none) none
    (fun _ => Except.ok ⟨"hello", AgentType.customer_service, [], []⟩)
    5 "hi" "m" rfl


/-- Claim C4 (code bug): for a request with neither prompt nor feedback,
the AgentCore endpoint raises its 400 before the try block and returns it
with no conversation created or mutated, but the src-variant router raises
its HTTPException(400) inside the try block, where the blanket except
clause catches it and resurfaces it as a 500. -/
theorem C4_missing_prompt_and_feedback
    (repo : Nat → Option Conversation) (guard : Option GuardrailSvc)
    (agent : AgentRequest → Except PyKind AgentResponse)
    (freshId : Nat) (model default_model : String) (uid : Option String) :
    router_send_message repo guard agent freshId ⟨none, none, model, uid, none⟩ =
      (Except.error ⟨500,
        "Failed to process request: 400: Either prompt or feedback must be provided"⟩,
        []) ∧
    invocations repo guard agent freshId default_model ⟨none, none, none, uid⟩ =
      (Except.error ⟨400, "Either prompt or feedback must be provided in input."⟩,
        []) := by
  constructor
  · simp [router_send_message, strFalsy]
  · simp [invocations, strFalsy]

/-- Claim C10: the src-variant router ignores the user id supplied in the
request body: the handler's outcome is unchanged under any user_id field,
feedback is logged under the fixed user id "default_user", and any newly
created conversation belongs to "default_user". -/
theorem C10_request_user_id_ignored
    (repo : Nat → Option Conversation) (guard : Option GuardrailSvc)
    (agent : AgentRequest → Except PyKind AgentResponse)
    (freshId : Nat) (req : SendMessageRequest) (u : Option String) :
    router_send_message repo guard agent freshId
        ⟨req.prompt, req.conversation_id, req.model, u, req.feedback⟩ =
      router_send_message repo guard agent freshId req ∧
    (∀ fb, req.feedback = some fb →
      Ev.feedbackLogged "default_user" fb.session_id fb.run_id
          (if (1 : ℚ)/2 < fb.score then 1 else 0) fb.comment ∈
        (router_send_message repo guard agent freshId req).2) ∧
    (req.conversation_id = none → strFalsy req.prompt = false →
      Ev.saved (Conversation.create freshId "default_user") ∈
        (router_send_message repo guard agent freshId req).2) := by
  refine ⟨?_, ?_, ?_⟩
  · cases req
    rfl
  · intro fb hfb
    cases hsf : strFalsy req.prompt with
    | true => simp [router_send_message, hfb, hsf]
    | false =>
      cases hc : req.conversation_id with
      | some cid => simp [router_send_message, hfb, hsf, hc]
      | none =>
        simp [router_send_message, hfb, hsf, hc,
          ConversationService.start_conversation]
  · intro hc hsf
    cases hfb : req.feedback with
    | some fb =>
      simp [router_send_message, hfb, hsf, hc,
        ConversationService.start_conversation, Conversation.create]
    | none =>
      simp [router_send_message, hfb, hsf, hc,
        ConversationService.start_conversation, Conversation.create]

/-- Witness for C10 at a concrete run: the outcome with user_id "bob"
equals the outcome with user_id "alice", the feedback event carries
"default_user", and the created conversation belongs to "default_user". -/
theorem C10_request_user_id_ignored_witness :
    router_send_message (fun _ => none) none
        (fun _ => Except.ok ⟨"hello", AgentType.customer_service, [], []⟩) 9
        ⟨some "hi", none, "m", some "bob", some ⟨"r1", "s1", 1, "c"⟩⟩ =
      router_send_message (fun _ => none) none
        (fun _ => Except.ok ⟨"hello", AgentType.customer_service, [], []⟩) 9
        ⟨some "hi", none, "m", some "alice", some ⟨"r1", "s1", 1, "c"⟩⟩ ∧
    Ev.feedbackLogged "default_user" "s1" "r1"
        (if (1 : ℚ)/2 < 1 then 1 else 0) "c" ∈
      (router_send_message (fun _ => none) none
        (fun _ => Except.ok ⟨"hello", AgentType.customer_service, [], []⟩) 9
        ⟨some "hi", none, "m", some "alice", some ⟨"r1", "s1", 1, "c"⟩⟩).2 ∧
    Ev.saved (Conversation.create 9 "default_user") ∈
      (router_send_message (fun _ => none) none
        (fun _ => Except.ok ⟨"hello", AgentType.customer_service, [], []⟩) 9
        ⟨some "hi", none, "m", some "alice", some ⟨"r1", "s1", 1, "c"⟩⟩).2 :=
  ⟨(C10_request_user_id_ignored (fun _ => none) none
      (fun _ => Except.ok ⟨"hello", AgentType.customer_service, [], []⟩) 9
      ⟨some "hi", none, "m", some "alice", some ⟨"r1", "s1", 1, "c"⟩⟩
      (some "bob")).1,
   (C10_request_user_id_ignored (fun _ => none) none
      (fun _ => Except.ok ⟨"hello", AgentType.customer_service, [], []⟩) 9
      ⟨some "hi", none, "m", some "alice", some ⟨"r1", "s1", 1, "c"⟩⟩
      (some "bob")).2.1 ⟨"r1", "s1", 1, "c"⟩ rfl,
   (C10_request_user_id_ignored (fun _ => none) none
      (fun _ => Except.ok ⟨"hello", AgentType.customer_service, [], []⟩) 9
      ⟨some "hi", none, "m", some "alice", some ⟨"r1", "s1", 1, "c"⟩⟩
      (some "bob")).2.2 rfl rfl⟩

/-- Claim C9: for a router request carrying both a prompt and feedback,
the feedback is logged first (score thresholded at 0.5) and the prompt is
processed normally: the response is the agent's reply with its tool list,
not the feedback-only acknowledgement. -/
theorem C9_feedback_then_prompt
    (repo : Nat → Option Conversation) (guard : Option GuardrailSvc)
    (agent : AgentRequest → Except PyKind AgentResponse)
    (freshId : Nat) (req : SendMessageRequest) (fb : FeedbackIn)
    (p : String) (cid : Nat) (conv : Conversation)
    (agent_response : AgentResponse)
    (hfb : req.feedback = some fb)
    (hp : req.prompt = some p)
    (hne : p.isEmpty = false)
    (hcid : req.conversation_id = some cid)
    (hconv : repo cid = some conv)
    (hpass : inputBlocked guard (Message.create_user_message p) = none)
    (hagent : agent (builtRequest
        (conv.add_message (Message.create_user_message p)) req.model) =
      Except.ok agent_response)
    (hout : outputBlocked guard (rawAiMessage agent_response) = none) :
    router_send_message repo guard agent freshId req =
      (Except.ok ⟨agent_response.content, agent_response.tools_used⟩,
       Ev.feedbackLogged "default_user" fb.session_id fb.run_id
           (if (1 : ℚ)/2 < fb.score then 1 else 0) fb.comment ::
         [Ev.agentCalled (builtRequest
            (conv.add_message (Message.create_user_message p)) req.model),
          Ev.saved ((conv.add_message (Message.create_user_message p)).add_message
            (finalAiMessage guard agent_response))]) := by
  have hfinal : finalAiMessage guard agent_response = rawAiMessage agent_response := by
    unfold finalAiMessage
    rw [hout]
  have hsvc : ConversationService.send_message repo guard agent cid p req.model =
      (Except.ok (finalAiMessage guard agent_response, agent_response.tools_used),
       [Ev.agentCalled (builtRequest
          (conv.add_message (Message.create_user_message p)) req.model),
        Ev.saved ((conv.add_message (Message.create_user_message p)).add_message
          (finalAiMessage guard agent_response))]) := by
    simp [ConversationService.send_message, hconv, hpass, hagent]
  simp [router_send_message, hfb, hp, hcid, strFalsy, hne, hsvc,
    routerMapResult, hfinal, rawAiMessage, Message.create_assistant_message]

/-- Witness for C9 at a concrete run: feedback with score 7/10 plus the
prompt "ask" against a stored conversation. -/
theorem C9_feedback_then_prompt_witness :
    router_send_message (fun i => if i = 2 then some ⟨2, "u", []⟩ else none) none
        (fun _ => Except.ok ⟨"ans", AgentType.customer_service, ["kb"], []⟩) 9
        ⟨some "ask", some 2, "m", none, some ⟨"r1", "s1", (7 : ℚ)/10, "nice"⟩⟩ =
      (Except.ok ⟨"ans", ["kb"]⟩,
       Ev.feedbackLogged "default_user" "s1" "r1"
           (if (1 : ℚ)/2 < (7 : ℚ)/10 then 1 else 0) "nice" ::
         [Ev.agentCalled (builtRequest
            (Conversation.add_message ⟨2, "u", []⟩ (Message.create_user_message "ask")) "m"),
          Ev.saved ((Conversation.add_message ⟨2, "u", []⟩
              (Message.create_user_message "ask")).add_message
            (finalAiMessage none
              ⟨"ans", AgentType.customer_service, ["kb"], []⟩))]) :=
  C9_feedback_then_prompt
    (fun i => if i = 2 then some ⟨2, "u", []⟩ else none) none
    (fun _ => Except.ok ⟨"ans", AgentType.customer_service, ["kb"], []⟩) 9
    ⟨some "ask", some 2, "m", none, some ⟨"r1", "s1", (7 : ℚ)/10, "nice"⟩⟩
    ⟨"r1", "s1", (7 : ℚ)/10, "nice"⟩ "ask" 2 ⟨2, "u", []⟩
    ⟨"ans", AgentType.customer_service, ["kb"], []⟩
    rfl rfl rfl rfl rfl rfl rfl rfl


/-- Claim C6 counterexample: a pipeline run that fails because the STM
memory id is not configured is surfaced at the HTTP boundary as a 404
not-found client error, not as an opaque server error: the adapter raises
the failure as ValueError and server.py maps every ValueError to 404. -/
theorem C6_counterexample_missing_config_is_404 :
    (invocations (fun _ => none) none
        (LangGraphAgentService.process_request none none
          (fun _ => Except.ok ⟨"x", AgentType.customer_service, [], []⟩))
        7 "m" ⟨some "What is Pelican App?", none, none, none⟩).1 =
      Except.error ⟨404, "STM Memory ID not configured"⟩ ∧
    (⟨404, "STM Memory ID not configured"⟩ : HttpErr).status ≠ 500 := by
  exact ⟨rfl, by decide⟩

/-- Claim C6 as amended: a pipeline invocation that fails because the STM
memory id is not configured is surfaced at the HTTP boundary as a 404
not-found client error carrying the ValueError's message. -/
theorem C6_missing_config_maps_to_404
    (repo : Nat → Option Conversation)
    (inner : AgentRequest → Except PyKind AgentResponse)
    (freshId : Nat) (default_model : String) (inp : InvInput)
    (hp : strFalsy inp.prompt = false)
    (hcid : inp.conversation_id = none) :
    (invocations repo none
        (LangGraphAgentService.process_request none none inner)
        freshId default_model inp).1 =
      Except.error ⟨404, "STM Memory ID not configured"⟩ := by
  cases hfb : inp.feedback with
  | none =>
    simp [invocations, hp, hfb, hcid, CxConversationService.send_message,
      ConversationService.start_conversation, ConversationService.send_message,
      updateRepo, inputBlocked, LangGraphAgentService.process_request,
      LangGraphAgentService.stm_check, Conversation.create]
    simp [strFalsy]
  | some fb =>
    simp [invocations, hp, hfb, hcid, CxConversationService.send_message,
      ConversationService.start_conversation, ConversationService.send_message,
      updateRepo, inputBlocked, LangGraphAgentService.process_request,
      LangGraphAgentService.stm_check, Conversation.create]
    simp [strFalsy]

/-- Witness for the amended C6 at a concrete run: prompt "hello", no
conversation id, STM parameter unset. -/
theorem C6_missing_config_maps_to_404_witness :
    (invocations (fun _ => none) none
        (LangGraphAgentService.process_request none none
          (fun _ => Except.ok ⟨"y", AgentType.customer_service, [], []⟩))
        3 "m" ⟨some "hello", none, none, some "alice"⟩).1 =
      Except.error ⟨404, "STM Memory ID not configured"⟩ :=
  C6_missing_config_maps_to_404 (fun _ => none)
    (fun _ => Except.ok ⟨"y", AgentType.customer_service, [], []⟩)
    3 "m" ⟨some "hello", none, none, some "alice"⟩ rfl rfl


/-- The tool-name collection loop equals a flat map over the transcript,
shifted by any accumulator. -/
theorem collectToolNames_foldl_eq (msgs : List LCMessage) :
    ∀ acc : List String,
      List.foldl (fun acc m => acc ++ toolCallNames m) acc msgs =
        acc ++ msgs.flatMap toolCallNames := by
  induction msgs with
  | nil => intro acc; simp
  | cons m rest ih =>
    intro acc
    simp [List.foldl_cons, ih, List.flatMap_cons, List.append_assoc]

/-- The tool-name collection loop is the flat map of per-message tool-call
names. -/
theorem collectToolNames_eq (msgs : List LCMessage) :
    collectToolNames msgs = msgs.flatMap toolCallNames := by
  simpa using collectToolNames_foldl_eq msgs []

/-- Claim C7: tool-usage extraction is a deterministic function of the
transcript whose result has no duplicates, deduplicating it again changes
nothing, and the set of extracted names is invariant under any permutation
of the transcript's messages. -/
theorem C7_tool_extraction_deterministic_set
    (msgs msgs2 : List LCMessage) (hperm : msgs.Perm msgs2) :
    (extract_tools_used msgs).Nodup ∧
    (extract_tools_used msgs).dedup = extract_tools_used msgs ∧
    (∀ x, x ∈ extract_tools_used msgs ↔ x ∈ extract_tools_used msgs2) := by
  refine ⟨List.nodup_dedup _, List.dedup_idem, ?_⟩
  intro x
  have hp : (collectToolNames msgs).Perm (collectToolNames msgs2) := by
    rw [collectToolNames_eq, collectToolNames_eq]
    exact hperm.flatMap_right toolCallNames
  simp only [extract_tools_used, List.mem_dedup]
  exact hp.mem_iff

/-- Witness for C7 at a concrete transcript and its swap permutation. -/
theorem C7_tool_extraction_deterministic_set_witness :
    (extract_tools_used
        [LCMessage.ai "a" ["t1", "t2"], LCMessage.ai "b" ["t1"]]).Nodup ∧
    (extract_tools_used
        [LCMessage.ai "a" ["t1", "t2"], LCMessage.ai "b" ["t1"]]).dedup =
      extract_tools_used [LCMessage.ai "a" ["t1", "t2"], LCMessage.ai "b" ["t1"]] ∧
    ("t1" ∈ extract_tools_used
        [LCMessage.ai "a" ["t1", "t2"], LCMessage.ai "b" ["t1"]] ↔
      "t1" ∈ extract_tools_used
        [LCMessage.ai "b" ["t1"], LCMessage.ai "a" ["t1", "t2"]]) :=
  ⟨(C7_tool_extraction_deterministic_set
      [LCMessage.ai "a" ["t1", "t2"], LCMessage.ai "b" ["t1"]]
      [LCMessage.ai "b" ["t1"], LCMessage.ai "a" ["t1", "t2"]]
      (List.Perm.swap (LCMessage.ai "b" ["t1"]) (LCMessage.ai "a" ["t1", "t2"]) [])).1,
   (C7_tool_extraction_deterministic_set
      [LCMessage.ai "a" ["t1", "t2"], LCMessage.ai "b" ["t1"]]
      [LCMessage.ai "b" ["t1"], LCMessage.ai "a" ["t1", "t2"]]
      (List.Perm.swap (LCMessage.ai "b" ["t1"]) (LCMessage.ai "a" ["t1", "t2"]) [])).2.1,
   (C7_tool_extraction_deterministic_set
      [LCMessage.ai "a" ["t1", "t2"], LCMessage.ai "b" ["t1"]]
      [LCMessage.ai "b" ["t1"], LCMessage.ai "a" ["t1", "t2"]]
      (List.Perm.swap (LCMessage.ai "b" ["t1"]) (LCMessage.ai "a" ["t1", "t2"]) [])).2.2 "t1"⟩


/-- A positive `any` yields a successful `find?`. -/
theorem find?_of_any {α : Type} (p : α → Bool) (l : List α)
    (h : l.any p = true) : ∃ x, l.find? p = some x := by
  rcases List.any_eq_true.mp h with ⟨a, ha, hpa⟩
  exact Option.isSome_iff_exists.mp (List.find?_isSome.mpr ⟨a, ha, hpa⟩)

/-- `extend` can only raise TypeError. -/
theorem extendPy_error (acc : List JVal) (v : JVal) (e : PyExc)
    (h : extendPy acc v = Except.error e) : e = PyExc.typeError := by
  cases v <;> simp_all [extendPy]

/-- A payload parsing to anything but a JSON object leaves the harvesting
state unchanged: the membership tests and indexings either answer without
effect or raise a caught TypeError. -/
theorem harvestMsg_str_nonobj (parse : String → Option JVal) (st : HarvestSt)
    (s : String) (v : JVal) (hp : parse s = some v)
    (hv : ∀ fields, v ≠ JVal.jobj fields) :
    harvestMsg parse st (LCMessage.toolMsg (JVal.jstr s)) = Except.ok st := by
  cases v with
  | jobj fields => exact absurd rfl (hv fields)
  | jnull => simp [harvestMsg, harvestBody, hp, pyContains, caughtExc]
  | jbool b => simp [harvestMsg, harvestBody, hp, pyContains, caughtExc]
  | jnum n => simp [harvestMsg, harvestBody, hp, pyContains, caughtExc]
  | jstr s2 =>
    cases hb : pyInStr "citations" s2 with
    | true =>
      simp [harvestMsg, harvestBody, hp, pyContains, pyIndex, hb, caughtExc]
    | false =>
      cases hb2 : pyInStr "knowledge_base_id" s2 with
      | true =>
        simp [harvestMsg, harvestBody, hp, pyContains, pyIndex, hb, hb2, caughtExc]
      | false =>
        simp [harvestMsg, harvestBody, hp, pyContains, pyIndex, hb, hb2, caughtExc]
  | jarr items =>
    cases hb : items.any (fun w => w == JVal.jstr "citations") with
    | true =>
      simp [harvestMsg, harvestBody, hp, pyContains, pyIndex, hb, caughtExc]
    | false =>
      cases hb2 : items.any (fun w => w == JVal.jstr "knowledge_base_id") with
      | true =>
        simp [harvestMsg, harvestBody, hp, pyContains, pyIndex, hb, hb2, caughtExc]
      | false =>
        simp [harvestMsg, harvestBody, hp, pyContains, pyIndex, hb, hb2, caughtExc]

/-- A payload parsing to a JSON object without a citations or
knowledge_base_id key leaves the harvesting state unchanged. -/
theorem harvestMsg_obj_nokeys (parse : String → Option JVal) (st : HarvestSt)
    (s : String) (fields : List (String × JVal))
    (hp : parse s = some (JVal.jobj fields))
    (hno : ∀ kv ∈ fields, kv.1 ≠ "citations" ∧ kv.1 ≠ "knowledge_base_id") :
    harvestMsg parse st (LCMessage.toolMsg (JVal.jstr s)) = Except.ok st := by
  have h1 : fields.any (fun kv => kv.1 == "citations") = false := by
    rw [List.any_eq_false]
    intro kv hkv
    simpa using (hno kv hkv).1
  have h2 : fields.any (fun kv => kv.1 == "knowledge_base_id") = false := by
    rw [List.any_eq_false]
    intro kv hkv
    simpa using (hno kv hkv).2
  simp [harvestMsg, harvestBody, hp, pyContains, h1, h2]

/-- One harvesting step never lets an exception escape: every exception the
try body can raise is named by the except clause (a KeyError is impossible
because indexing follows a successful membership test). -/
theorem harvestMsg_isOk (parse : String → Option JVal) (st : HarvestSt)
    (m : LCMessage) : ∃ st2, harvestMsg parse st m = Except.ok st2 := by
  cases m with
  | ai c tcs => exact ⟨st, rfl⟩
  | human c => exact ⟨st, rfl⟩
  | otherMsg => exact ⟨st, rfl⟩
  | toolMsg content =>
    cases content with
    | jnull => exact ⟨st, rfl⟩
    | jbool b => exact ⟨st, rfl⟩
    | jnum n => exact ⟨st, rfl⟩
    | jarr items => exact ⟨st, rfl⟩
    | jobj fields0 => exact ⟨st, rfl⟩
    | jstr s =>
      cases hp : parse s with
      | none => exact ⟨st, by simp [harvestMsg, harvestBody, hp, caughtExc]⟩
      | some v =>
        cases v with
        | jnull =>
          exact ⟨st, harvestMsg_str_nonobj parse st s _ hp
            (fun f hh => JVal.noConfusion hh)⟩
        | jbool b =>
          exact ⟨st, harvestMsg_str_nonobj parse st s _ hp
            (fun f hh => JVal.noConfusion hh)⟩
        | jnum n =>
          exact ⟨st, harvestMsg_str_nonobj parse st s _ hp
            (fun f hh => JVal.noConfusion hh)⟩
        | jstr s2 =>
          exact ⟨st, harvestMsg_str_nonobj parse st s _ hp
            (fun f hh => JVal.noConfusion hh)⟩
        | jarr items =>
          exact ⟨st, harvestMsg_str_nonobj parse st s _ hp
            (fun f hh => JVal.noConfusion hh)⟩
        | jobj fields =>
          cases hb : fields.any (fun kv => kv.1 == "citations") with
          | false =>
            cases hb2 : fields.any (fun kv => kv.1 == "knowledge_base_id") with
            | false =>
              exact ⟨st, by
                simp [harvestMsg, harvestBody, hp, pyContains, hb, hb2]⟩
            | true =>
              obtain ⟨kv2, hfind2⟩ :=
                find?_of_any (fun kv => kv.1 == "knowledge_base_id") fields hb2
              exact ⟨⟨st.citations, some kv2.2⟩, by
                simp [harvestMsg, harvestBody, hp, pyContains, pyIndex,
                  hb, hb2, hfind2]⟩
          | true =>
            obtain ⟨kv, hfind⟩ :=
              find?_of_any (fun kv => kv.1 == "citations") fields hb
            cases hext : extendPy st.citations kv.2 with
            | error e =>
              have he := extendPy_error st.citations kv.2 e hext
              subst he
              exact ⟨st, by
                simp [harvestMsg, harvestBody, hp, pyContains, pyIndex,
                  hb, hfind, hext, caughtExc]⟩
            | ok cits =>
              cases hb2 : fields.any (fun kv => kv.1 == "knowledge_base_id") with
              | false =>
                exact ⟨⟨cits, st.knowledge_base_id⟩, by
                  simp [harvestMsg, harvestBody, hp, pyContains, pyIndex,
                    hb, hfind, hext, hb2]⟩
              | true =>
                obtain ⟨kv2, hfind2⟩ :=
                  find?_of_any (fun kv => kv.1 == "knowledge_base_id") fields hb2
                exact ⟨⟨cits, some kv2.2⟩, by
                  simp [harvestMsg, harvestBody, hp, pyContains, pyIndex,
                    hb, hfind, hext, hb2, hfind2]⟩

/-- The harvesting loop over a whole transcript never raises. -/
theorem harvest_isOk (parse : String → Option JVal) (msgs : List LCMessage) :
    ∀ st, ∃ st2, harvest parse st msgs = Except.ok st2 := by
  induction msgs with
  | nil => intro st; exact ⟨st, rfl⟩
  | cons m rest ih =>
    intro st
    obtain ⟨st1, h1⟩ := harvestMsg_isOk parse st m
    obtain ⟨st2, h2⟩ := ih st1
    exact ⟨st2, by simp [harvest, h1, h2]⟩

/-- A malformed tool payload contributes nothing: the harvesting state is
returned unchanged. -/
theorem harvestMsg_malformed (parse : String → Option JVal) (st : HarvestSt)
    (content : JVal) (h : malformedContent parse content) :
    harvestMsg parse st (LCMessage.toolMsg content) = Except.ok st := by
  rcases h with h | ⟨s, hs, hc⟩
  · cases content with
    | jstr s => exact absurd rfl (h s)
    | jnull => rfl
    | jbool b => rfl
    | jnum n => rfl
    | jarr items => rfl
    | jobj fields => rfl
  · subst hs
    rcases hc with hz | ⟨v, hv, hobj⟩
    · simp [harvestMsg, harvestBody, hz, caughtExc]
    · cases v with
      | jobj fields =>
        exact harvestMsg_obj_nokeys parse st s fields hv (hobj fields rfl)
      | jnull =>
        exact harvestMsg_str_nonobj parse st s _ hv
          (fun f hh => JVal.noConfusion hh)
      | jbool b =>
        exact harvestMsg_str_nonobj parse st s _ hv
          (fun f hh => JVal.noConfusion hh)
      | jnum n =>
        exact harvestMsg_str_nonobj parse st s _ hv
          (fun f hh => JVal.noConfusion hh)
      | jstr s2 =>
        exact harvestMsg_str_nonobj parse st s _ hv
          (fun f hh => JVal.noConfusion hh)
      | jarr items =>
        exact harvestMsg_str_nonobj parse st s _ hv
          (fun f hh => JVal.noConfusion hh)

/-- Claim C8: citation harvesting is total — the loop never lets an
exception escape on any transcript — and a tool message whose content is
not a string, not valid JSON, or not a JSON object carrying a citations or
knowledge_base_id key contributes nothing to the collected citations or
knowledge-base identifier. -/
theorem C8_harvest_total_and_malformed_noop :
    (∀ (parse : String → Option JVal) (st : HarvestSt) (msgs : List LCMessage),
      ∃ st2, harvest parse st msgs = Except.ok st2) ∧
    (∀ (parse : String → Option JVal) (st : HarvestSt) (content : JVal),
      malformedContent parse content →
        harvestMsg parse st (LCMessage.toolMsg content) = Except.ok st) :=
  ⟨fun parse st msgs => harvest_isOk parse msgs st,
   fun parse st content h => harvestMsg_malformed parse st content h⟩

/-- Witness for C8 at a concrete malformed payload: a non-string tool
content (the number 3) under a parser rejecting everything. -/
theorem C8_harvest_total_and_malformed_noop_witness :
    harvestMsg (fun _ => none) initHarvest (LCMessage.toolMsg (JVal.jnum 3)) =
      Except.ok initHarvest :=
  C8_harvest_total_and_malformed_noop.2 (fun _ => none) initHarvest
    (JVal.jnum 3) (Or.inl (fun _ hh => JVal.noConfusion hh))

end CxAgent
